import Mathlib

/-!
Verification of cntlm's `main.c` (acceptor, SOCKS5 front-end, no-proxy
routing, startup credential handling, signal-driven shutdown).

The C code is shallowly embedded: byte streams become `List Nat`
(each element one octet), C strings become `String` or `List Nat`,
the sequential `read`/`write` calls of a worker become a pure function
from the input byte list to the list of written byte blocks plus an
outcome, and process-global integers (`quit`, `tc`, `tj`) become
explicit state.  External libc / helper functions that live outside
`main.c` (`fnmatch`, the hash primitives from `ntlm.c`) are passed in
as function parameters, so every theorem quantifies over them.
-/

namespace Cntlm

/-- Reading n bytes, `read(fd, buf, n)`, from a byte stream: returns the first `n` bytes and
the remainder, or `none` when the stream ends early (the C code treats a
short read as failure and bails out). -/
def readN : Nat → List Nat → Option (List Nat × List Nat)
  | 0, input => some ([], input)
  | _ + 1, [] => none
  | n + 1, b :: rest =>
    match readN n rest with
    | some (bs, rem) => some (b :: bs, rem)
    | none => none

/-- Function `noproxy_match` (main.c:407-424): walk the no-proxy list and report
whether some nonempty pattern glob-matches the address.  `fnm` is libc
`fnmatch` specialised to "returns 0", kept abstract. -/
def noproxy_match (fnm : String → String → Bool) : List String → String → Bool
  | [], _ => false
  | p :: rest, addr =>
    if p.length != 0 && fnm p addr then true else noproxy_match fnm rest addr

/-- Routing outcome of `proxy_thread` for one request. -/
inductive Route where
  | direct
  | pacForward
  | forward
deriving DecidableEq

/-- The routing decision of `proxy_thread` (main.c:494-511): the no-proxy
list has highest precedence, then the PAC engine when initialized, else
the statically configured parent proxies. -/
def proxy_route (fnm : String → String → Bool) (noproxy : List String)
    (pacInitialized : Bool) (hostname : String) : Route :=
  if noproxy_match fnm noproxy hostname then .direct
  else if pacInitialized then .pacForward
  else .forward

/-- The `strchr(hostname, ':')` truncation in `tunnel_thread` (main.c:563-565):
keep the characters before the first colon. -/
def strchr_cut (l : List Char) : List Char :=
  l.takeWhile (fun c => c != ':')

/-- Routing outcome of `tunnel_thread`. -/
inductive TunnelRoute where
  | direct
  | forward
deriving DecidableEq

/-- The decision of `tunnel_thread` (main.c:556-571): truncate the fixed
target at the first ':' and pick `direct_tunnel` on a no-proxy match,
else `forward_tunnel`. -/
def tunnel_thread_route (fnm : String → String → Bool) (noproxy : List String)
    (target : String) : TunnelRoute :=
  if noproxy_match fnm noproxy (String.mk (strchr_cut target.toList)) then .direct
  else .forward

/-- How the SOCKS5 worker reaches the requested destination. -/
inductive ConnectPath where
  | direct
  | viaProxy
deriving DecidableEq

/-- The decision of `socks5_thread` at main.c:803-816: a no-proxy match on
the textual destination address connects straight to the host
(`host_connect`), otherwise the worker dials the parent proxy and issues
an HTTP CONNECT. -/
def socks5_connect_path (fnm : String → String → Bool) (noproxy : List String)
    (thost : String) : ConnectPath :=
  if noproxy_match fnm noproxy thost then .direct else .viaProxy

/-- Method selection of `socks5_thread` (main.c:634-654): when the user
table is empty ("wide open") the first loop looks for method 0x00; a
second loop (always run if nothing was found) looks for method 0x02. -/
def select_method (openTable : Bool) (auths : List Nat) : Option Nat :=
  let first := if openTable then auths.find? (fun a => a == 0) else none
  match first with
  | some m => some m
  | none => auths.find? (fun a => a == 2)

/-- Modelled from the spec: `hlist_get` (association-list lookup, defined
outside `src/` in the utility module) returns the value stored in the
user table for the given key, `none` when absent. -/
def hlist_get (users : List (List Nat × List Nat)) (key : List Nat) :
    Option (List Nat) :=
  (users.find? (fun e => e.1 == key)).map (fun e => e.2)

/-- The credential check of `socks5_thread` (main.c:718-725):
`!hlist_count(users_list) || (tmp && !strcmp(tmp, upass))`. -/
def check_credentials (users : List (List Nat × List Nat))
    (uname upass : List Nat) : Bool :=
  users.length == 0 ||
    (match hlist_get users uname with
     | some tmp => tmp == upass
     | none => false)

/-- Username/password sub-negotiation of `socks5_thread`
(main.c:677-742).  Returns the blocks written to the client and, on
success, the unconsumed input; `none` means the connection is closed
(`goto bailout`). -/
def socks5_subnegotiation (users : List (List Nat × List Nat))
    (input : List Nat) : List (List Nat) × Option (List Nat) :=
  match readN 2 input with
  | none => ([[1, 255]], none)
  | some (vu, rest) =>
    let ulen := vu.getD 1 0
    match readN (ulen + 1) rest with
    | none => ([], none)
    | some (ub, rest2) =>
      let uname := ub.take ulen
      let plen := ub.getD ulen 0
      match readN plen rest2 with
      | none => ([], none)
      | some (upass, rest3) =>
        if check_credentials users uname upass then ([[1, 0]], some rest3)
        else ([[1, 255]], none)

/-- Final outcome of a SOCKS5 worker. -/
inductive S5Outcome where
  | bailout
  | tunneled (path : ConnectPath) (host : String) (port : Nat)
deriving DecidableEq

/-- The dotted-quad rendering of an IPv4 destination
(`snprintf(thost, ..., "%d.%d.%d.%d", ...)`, main.c:791). -/
def ipv4_string (a b c d : Nat) : String :=
  Nat.repr a ++ "." ++ Nat.repr b ++ "." ++ Nat.repr c ++ "." ++ Nat.repr d

/-- Tail of the SOCKS5 request phase (main.c:796-851): read the two port
bytes (network byte order), decide direct versus parent proxy by the
no-proxy list, and report connect success `[5,0,...]` or failure
`[5,1,...]`.  `connectOk` abstracts the success of
`host_connect` / `proxy_connect` + `prepare_http_connect`. -/
def socks5_request_finish (fnm : String → String → Bool) (noproxy : List String)
    (connectOk : Bool) (thost : String) (input : List Nat) :
    List (List Nat) × S5Outcome :=
  match readN 2 input with
  | none => ([], .bailout)
  | some (pb, _) =>
    let port := 256 * pb.getD 0 0 + pb.getD 1 0
    let path := socks5_connect_path fnm noproxy thost
    if connectOk then ([[5, 0, 0, 1, 0, 0, 0, 0, 0, 0]], .tunneled path thost port)
    else ([[5, 1, 0, 1, 0, 0, 0, 0, 0, 0]], .bailout)

/-- The SOCKS5 request phase (main.c:744-851): read the 4-byte request
header; anything but CONNECT (cmd 0x01) to IPv4 (atyp 0x01) or DOMAIN
(atyp 0x03) is answered with reply code 0x02 ("not allowed") and the
connection is closed; otherwise the destination address is read and the
connect is attempted. -/
def socks5_request (fnm : String → String → Bool) (noproxy : List String)
    (connectOk : Bool) (input : List Nat) : List (List Nat) × S5Outcome :=
  match readN 4 input with
  | none => ([], .bailout)
  | some (req, rest) =>
    let cmd := req.getD 1 0
    let atyp := req.getD 3 0
    if cmd != 1 || (atyp != 1 && atyp != 3) then
      ([[5, 2, 0, 1, 0, 0, 0, 0, 0, 0]], .bailout)
    else if atyp == 1 then
      match readN 4 rest with
      | none => ([], .bailout)
      | some (a4, rest2) =>
        socks5_request_finish fnm noproxy connectOk
          (ipv4_string (a4.getD 0 0) (a4.getD 1 0) (a4.getD 2 0) (a4.getD 3 0)) rest2
    else
      match readN 1 rest with
      | none => ([], .bailout)
      | some (ln, rest2) =>
        match readN (ln.getD 0 0) rest2 with
        | none => ([], .bailout)
        | some (ab, rest3) =>
          socks5_request_finish fnm noproxy connectOk
            (String.mk (ab.map Char.ofNat)) rest3

/-- The whole `socks5_thread` worker (main.c:589-871) as a function from
the client's byte stream to the written blocks and the outcome. -/
def socks5_thread (fnm : String → String → Bool) (noproxy : List String)
    (users : List (List Nat × List Nat)) (connectOk : Bool)
    (input : List Nat) : List (List Nat) × S5Outcome :=
  match readN 2 input with
  | none => ([], .bailout)
  | some (hdr, rest) =>
    if hdr.getD 0 0 != 5 then ([], .bailout)
    else
      match readN (hdr.getD 1 0) rest with
      | none => ([], .bailout)
      | some (auths, rest2) =>
        match select_method (users.length == 0) auths with
        | none => ([[5, 255]], .bailout)
        | some found =>
          if found == 0 then
            let r := socks5_request fnm noproxy connectOk rest2
            ([5, found] :: r.1, r.2)
          else
            match socks5_subnegotiation users rest2 with
            | (w, none) => ([5, found] :: w, .bailout)
            | (w, some rest3) =>
              let r := socks5_request fnm noproxy connectOk rest3
              ([5, found] :: (w ++ r.1), r.2)

/-! Acceptor / dispatcher (main.c:1839-1962). -/

/-- The worker a freshly accepted connection is handed to. -/
inductive Worker where
  | proxy
  | socks
  | tunnel (target : Option String)
deriving DecidableEq

/-- Membership test `plist_in` on a file-descriptor-keyed list. -/
def plist_in (l : List Nat) (i : Nat) : Bool :=
  l.contains i

/-- Modelled from the spec: `plist_get` (keyed-list lookup, defined
outside `src/` in the utility module) returns the payload stored for a
key — here the fixed "host:port" target of a tunnel listener. -/
def plist_get (l : List (Nat × String)) (i : Nat) : Option String :=
  (l.find? (fun e => e.1 == i)).map (fun e => e.2)

/-- The file descriptors the acceptor `FD_SET`s before `select`
(main.c:1848-1875): every proxy, SOCKS5 and tunnel listener. -/
def watched_fds (proxyd socksd : List Nat) (tunneld : List (Nat × String)) :
    List Nat :=
  proxyd ++ socksd ++ tunneld.map (fun e => e.1)

/-- The `select` timeout, `tv_sec = 1`, `tv_usec = 0` (main.c:1877-1878). -/
def select_timeout : Nat × Nat :=
  (1, 0)

/-- Dispatch of an accepted connection by originating listener
(main.c:1911-1930): proxy listeners spawn `proxy_thread`, SOCKS5
listeners spawn `socks5_thread`, anything else spawns `tunnel_thread`
seeded with `plist_get(tunneld_list, i)`. -/
def dispatch (proxyd socksd : List Nat) (tunneld : List (Nat × String))
    (i : Nat) : Worker :=
  if plist_in proxyd i then .proxy
  else if plist_in socksd i then .socks
  else .tunnel (plist_get tunneld i)

/-! Signals and the accept-loop condition (main.c:142-155, 1839). -/

/-- Signal handler `sighandler` (main.c:142-155): `if (quit++ || debug) quit++;` —
the first signal in normal mode moves `quit` from 0 to 1, any later
signal (or any signal in debug mode) adds 2. -/
def sighandler (debug quit : Nat) : Nat :=
  if quit != 0 || debug != 0 then quit + 2 else quit + 1

/-- The accept-loop guard (main.c:1839):
`while (quit == 0 || (tc != tj && quit < 2))`. -/
def accept_loop_continues (quit tc tj : Nat) : Bool :=
  quit == 0 || (tc != tj && decide (quit < 2))

/-- The acceptor's mutable counters: the quit flag, total threads
created (`tc`) and total threads joined (`tj`). -/
structure LoopState where
  quit : Nat
  tc : Nat
  tj : Nat
deriving DecidableEq

/-- One pass of the accept-loop body (main.c:1848-1961): every ready
listener connection is accepted and a worker spawned (`tc++`,
main.c:1937), then finished workers are joined (`tj++`, main.c:1950).
The body never consults `quit`. -/
def accept_iteration (st : LoopState) (readyConns finishedThreads : Nat) :
    LoopState :=
  { st with tc := st.tc + readyConns, tj := st.tj + finishedThreads }

/-! Startup: auth policy, password hashing, exit codes. -/

/-- The NTLM hash-selection flags of `struct auth_s`. -/
structure AuthFlags where
  hashnt : Nat
  hashlm : Nat
  hashntlm2 : Nat
deriving DecidableEq

/-- Lower-cased character list of a string, the basis of libc
`strcasecmp`. -/
def lowercase (s : String) : List Char :=
  s.toList.map Char.toLower

/-- Predicate for `strcasecmp(a, b) == 0`: case-insensitive string equality. -/
def strcasecmp_eq (a b : String) : Bool :=
  lowercase a == lowercase b

/-- The `-a` auth-policy parsing (main.c:1520-1553): each recognized
value (case-insensitive) sets a fixed flag combination; an empty value
leaves the flags untouched; any other value is fatal
(`myexit(1)`, modelled as `none`). -/
def parse_auth (prev : AuthFlags) (cauth : String) : Option AuthFlags :=
  if cauth.length == 0 then some prev
  else if strcasecmp_eq "ntlm" cauth then some ⟨1, 1, 0⟩
  else if strcasecmp_eq "nt" cauth then some ⟨1, 0, 0⟩
  else if strcasecmp_eq "lm" cauth then some ⟨0, 1, 0⟩
  else if strcasecmp_eq "ntlmv2" cauth then some ⟨0, 0, 1⟩
  else if strcasecmp_eq "ntlm2sr" cauth then some ⟨2, 0, 0⟩
  else none

/-- The credential buffers after startup hashing. -/
structure CredResult where
  cpassword : List Nat
  passnt : List Nat
  passlm : List Nat
  passntlm2 : List Nat
deriving DecidableEq

/-- The cleartext-password branch of startup hashing (main.c:1622-1637):
each selected hash (or all of them under `-M`/`-H`) is computed from the
cleartext, after which `memset(cpassword, 0, strlen(cpassword))` wipes
the password buffer.  The hash primitives live in `ntlm.c` and are
passed in abstractly. -/
def hash_cleartext_password (nt_hash lm_hash : List Nat → List Nat)
    (ntlm2_hash : String → String → List Nat → List Nat)
    (f : AuthFlags) (magic_det interactivehash : Bool)
    (cuser cdomain : String) (cpassword : List Nat)
    (passnt passlm passntlm2 : List Nat) : CredResult :=
  let passnt2 :=
    if f.hashnt != 0 || magic_det || interactivehash then nt_hash cpassword
    else passnt
  let passlm2 :=
    if f.hashlm != 0 || magic_det || interactivehash then lm_hash cpassword
    else passlm
  let passntlm22 :=
    if f.hashntlm2 != 0 || magic_det || interactivehash then
      ntlm2_hash cuser cdomain cpassword
    else passntlm2
  ⟨List.replicate cpassword.length 0, passnt2, passlm2, passntlm22⟩

/-- The startup inputs that decide the credential-related exit paths. -/
structure StartupConfig where
  cauth : String
  ntlmbasic : Bool
  passnt_zero : Bool
  passlm_zero : Bool
  passntlm2_zero : Bool
deriving DecidableEq

/-- The password-presence check (main.c:1692-1701): unless `-B` NTLM-to-
basic mode is on, a selected hash whose buffer is still all zero is a
fatal startup error. -/
def password_check_fails (f : AuthFlags) (cfg : StartupConfig) : Bool :=
  !cfg.ntlmbasic &&
    ((f.hashnt != 0 && cfg.passnt_zero) ||
     (f.hashlm != 0 && cfg.passlm_zero) ||
     (f.hashntlm2 != 0 && cfg.passntlm2_zero))

/-- Credential-related startup: parse the auth policy (fatal with exit
code 1 on an unknown value, main.c:1551) and check that every selected
hash is available (fatal with exit code 1 when missing, main.c:1700). -/
def startup_creds (prev : AuthFlags) (cfg : StartupConfig) :
    Except Nat AuthFlags :=
  match parse_auth prev cfg.cauth with
  | none => .error 1
  | some f => if password_check_fails f cfg then .error 1 else .ok f

/-- The process exit status: a failed startup exits with the recorded
code (always 1); once startup succeeded, `main` falls out of the accept
loop — whatever the final value of `quit` — and runs `exit(0)`
(main.c:1991). -/
def main_exit_code (prev : AuthFlags) (cfg : StartupConfig)
    (_quitFinal : Nat) : Nat :=
  match startup_creds prev cfg with
  | .error c => c
  | .ok _ => 0

/-! Helper lemmas. -/

/-- Reading exactly the length of a prefix returns that prefix. -/
theorem readN_exact (l t : List Nat) : readN l.length (l ++ t) = some (l, t) := by
  induction l with
  | nil => rfl
  | cons a as ih => simp [readN, ih]

/-- A nonempty matching pattern in the list makes `noproxy_match` fire. -/
theorem noproxy_match_of_mem (fnm : String → String → Bool)
    (l : List String) (addr : String) (p : String)
    (hp : p ∈ l) (hlen : p.length ≠ 0) (hf : fnm p addr = true) :
    noproxy_match fnm l addr = true := by
  induction l with
  | nil => cases hp
  | cons q rest ih =>
    rcases List.mem_cons.mp hp with rfl | hmem
    · have : (p.length != 0 && fnm p addr) = true := by
        simp [hf, hlen]
      simp [noproxy_match, this]
    · unfold noproxy_match
      split
      · rfl
      · exact ih hmem

/-- Dropping everything from the first element failing the predicate. -/
theorem takeWhile_append_cons {α : Type} (p : α → Bool) (h : List α) (x : α)
    (t : List α) (hall : ∀ c ∈ h, p c = true) (hx : p x = false) :
    (h ++ x :: t).takeWhile p = h := by
  induction h with
  | nil => simp [List.takeWhile_cons, hx]
  | cons a as ih =>
    have ha : p a = true := hall a (by simp)
    simp [List.takeWhile_cons, ha]
    exact ih (fun c hc => hall c (by simp [hc]))

/-- Indexing just past a prefix hits the next element. -/
theorem getD_append_len (l : List Nat) (x d : Nat) (t : List Nat) :
    (l ++ x :: t).getD l.length d = x := by
  induction l with
  | nil => rfl
  | cons a as ih => simpa using ih

/-! Claim theorems. -/

/-- Claim C1: for every request whose hostname matches some (nonempty)
pattern in the configured no-proxy glob list, all three workers take the
direct path: `proxy_thread` routes to `direct_request` even when the PAC
engine is initialized, `socks5_thread` connects straight to the target
host, and `tunnel_thread` (whose fixed target is `host:port`) splices
via `direct_tunnel`. -/
theorem noproxy_has_precedence (fnm : String → String → Bool)
    (noproxy : List String) (pacInitialized : Bool)
    (hostL portL : List Char)
    (hmatch : ∃ p, p ∈ noproxy ∧ p.length ≠ 0 ∧ fnm p (String.mk hostL) = true)
    (hhost : ∀ c ∈ hostL, c ≠ ':') :
    proxy_route fnm noproxy pacInitialized (String.mk hostL) = .direct ∧
    socks5_connect_path fnm noproxy (String.mk hostL) = .direct ∧
    tunnel_thread_route fnm noproxy (String.mk (hostL ++ ':' :: portL)) = .direct := by
  obtain ⟨p, hp, hlen, hf⟩ := hmatch
  have hm : noproxy_match fnm noproxy (String.mk hostL) = true :=
    noproxy_match_of_mem fnm noproxy _ p hp hlen hf
  refine ⟨?_, ?_, ?_⟩
  · simp [proxy_route, hm]
  · simp [socks5_connect_path, hm]
  · have hcut : strchr_cut (hostL ++ ':' :: portL) = hostL := by
      apply takeWhile_append_cons
      · intro c hc
        simp [hhost c hc]
      · simp
    have : (String.mk (hostL ++ ':' :: portL)).toList = hostL ++ ':' :: portL := rfl
    simp [tunnel_thread_route, this, hcut, hm]

/-- Claim C1 witness: an exact-match "glob" on host `example.com`. -/
theorem noproxy_has_precedence_witness :
    proxy_route (fun p a => p == a) ["example.com"] true "example.com" = .direct ∧
    socks5_connect_path (fun p a => p == a) ["example.com"] "example.com" = .direct ∧
    tunnel_thread_route (fun p a => p == a) ["example.com"] "example.com:443" = .direct :=
  noproxy_has_precedence (fun p a => p == a) ["example.com"] true
    "example.com".toList ":443".toList.tail
    ⟨"example.com", by decide, by decide, by decide⟩ (by decide)

/-- Claim C10: for every fixed-target tunnel, the no-proxy decision is
made on the host part of the target only: `host:port` is truncated at
the first ':' before glob matching, so the patterns are matched against
exactly the host and never see the port. -/
theorem tunnel_match_sees_host_only (fnm : String → String → Bool)
    (noproxy : List String) (hostL portL : List Char)
    (hhost : ∀ c ∈ hostL, c ≠ ':') :
    strchr_cut (hostL ++ ':' :: portL) = hostL ∧
    tunnel_thread_route fnm noproxy (String.mk (hostL ++ ':' :: portL)) =
      (if noproxy_match fnm noproxy (String.mk hostL) then .direct else .forward) := by
  have hcut : strchr_cut (hostL ++ ':' :: portL) = hostL := by
    apply takeWhile_append_cons
    · intro c hc
      simp [hhost c hc]
    · simp
  refine ⟨hcut, ?_⟩
  have : (String.mk (hostL ++ ':' :: portL)).toList = hostL ++ ':' :: portL := rfl
  simp [tunnel_thread_route, this, hcut]

/-- Claim C10 witness: two targets with the same host and different
ports produce the host alone as the matched address. -/
theorem tunnel_match_sees_host_only_witness :
    strchr_cut ("internal.corp".toList ++ ':' :: "8080".toList) = "internal.corp".toList ∧
    tunnel_thread_route (fun p a => p == a) ["internal.corp"]
      (String.mk ("internal.corp".toList ++ ':' :: "8080".toList)) =
      (if noproxy_match (fun p a => p == a) ["internal.corp"] "internal.corp"
       then .direct else .forward) :=
  tunnel_match_sees_host_only (fun p a => p == a) ["internal.corp"]
    "internal.corp".toList "8080".toList (by decide)

/-- Claim C4 counterexample: after the first shutdown signal (normal
mode: `sighandler` moves `quit` from 0 to 1) with one worker still
unjoined, the accept loop continues AND its body still accepts a ready
connection and spawns a worker (`tc` grows from 1 to 2) — the daemon
does not stop accepting new connections on the first signal. -/
theorem first_signal_still_accepts :
    sighandler 0 0 = 1 ∧
    accept_loop_continues 1 1 0 = true ∧
    accept_iteration ⟨1, 1, 0⟩ 1 0 = ⟨1, 2, 0⟩ := by
  decide

/-- Claim C4 (amended): the first shutdown signal sets the quit flag to
1; the acceptor then keeps looping — still accepting new connections —
exactly until every created worker thread has been joined; a second
signal raises the flag to at least 2 and forces the accept loop to exit
regardless of still-active workers. -/
theorem shutdown_signal_discipline (d q tc tj : Nat) :
    sighandler 0 0 = 1 ∧
    (accept_loop_continues 1 tc tj = true ↔ tc ≠ tj) ∧
    (accept_iteration ⟨1, tc, tj⟩ 1 0).tc = tc + 1 ∧
    (1 ≤ q → accept_loop_continues (sighandler d q) tc tj = false) := by
  refine ⟨rfl, ?_, rfl, ?_⟩
  · simp [accept_loop_continues]
  · intro hq
    have hs : sighandler d q = q + 2 := by
      unfold sighandler
      have : (q != 0 || d != 0) = true := by
        simp only [Bool.or_eq_true, bne_iff_ne, ne_eq]
        omega
      simp [this]
    simp only [hs, accept_loop_continues]
    have h1 : (q + 2 == 0) = false := by simp
    have h2 : decide (q + 2 < 2) = false := by simp
    simp [h1, h2]

/-- Claim C4 witness for the amended statement: first signal, one
unjoined worker, then a second signal. -/
theorem shutdown_signal_discipline_witness :
    sighandler 0 0 = 1 ∧
    (accept_loop_continues 1 1 0 = true ↔ (1 : Nat) ≠ 0) ∧
    (accept_iteration ⟨1, 1, 0⟩ 1 0).tc = 2 ∧
    accept_loop_continues (sighandler 0 1) 1 0 = false :=
  ⟨(shutdown_signal_discipline 0 1 1 0).1,
   (shutdown_signal_discipline 0 1 1 0).2.1,
   (shutdown_signal_discipline 0 1 1 0).2.2.1,
   (shutdown_signal_discipline 0 1 1 0).2.2.2 (by decide)⟩

/-- Claim C6: the acceptor selects over every proxy, SOCKS5 and tunnel
listener socket with a 1-second timeout, and dispatches each accepted
connection by listener kind: proxy listeners to a proxy worker, SOCKS5
listeners to a SOCKS5 worker, and tunnel listeners to a tunnel worker
seeded with that listener's fixed target string. -/
theorem acceptor_dispatch (proxyd socksd : List Nat)
    (tunneld : List (Nat × String)) (i j : Nat) (t : String) :
    select_timeout = (1, 0) ∧
    (j ∈ watched_fds proxyd socksd tunneld ↔
      j ∈ proxyd ∨ j ∈ socksd ∨ j ∈ tunneld.map (fun e => e.1)) ∧
    (plist_in proxyd i = true → dispatch proxyd socksd tunneld i = .proxy) ∧
    (plist_in proxyd i = false → plist_in socksd i = true →
      dispatch proxyd socksd tunneld i = .socks) ∧
    (plist_in proxyd i = false → plist_in socksd i = false →
      plist_get tunneld i = some t →
      dispatch proxyd socksd tunneld i = .tunnel (some t)) := by
  refine ⟨rfl, ?_, ?_, ?_, ?_⟩
  · simp [watched_fds]
  · intro h
    simp [dispatch, h]
  · intro h1 h2
    simp [dispatch, h1, h2]
  · intro h1 h2 h3
    simp [dispatch, h1, h2, h3]

/-- Claim C6 witness: three listeners, fds 3 (proxy), 4 (SOCKS5) and
5 (tunnel to `db:5432`). -/
theorem acceptor_dispatch_witness :
    select_timeout = (1, 0) ∧
    (5 ∈ watched_fds [3] [4] [(5, "db:5432")] ↔
      5 ∈ [3] ∨ 5 ∈ [4] ∨ 5 ∈ [(5, "db:5432")].map (fun e => e.1)) ∧
    dispatch [3] [4] [(5, "db:5432")] 3 = .proxy ∧
    dispatch [3] [4] [(5, "db:5432")] 4 = .socks ∧
    dispatch [3] [4] [(5, "db:5432")] 5 = .tunnel (some "db:5432") :=
  ⟨(acceptor_dispatch [3] [4] [(5, "db:5432")] 3 5 "db:5432").1,
   (acceptor_dispatch [3] [4] [(5, "db:5432")] 3 5 "db:5432").2.1,
   (acceptor_dispatch [3] [4] [(5, "db:5432")] 3 5 "db:5432").2.2.1 (by decide),
   (acceptor_dispatch [3] [4] [(5, "db:5432")] 4 5 "db:5432").2.2.2.1 (by decide) (by decide),
   (acceptor_dispatch [3] [4] [(5, "db:5432")] 5 5 "db:5432").2.2.2.2 (by decide) (by decide)
     (by decide)⟩

/-- A failed credential startup always records exit code 1. -/
theorem startup_error_is_one (prev : AuthFlags) (cfg : StartupConfig) (e : Nat)
    (h : startup_creds prev cfg = .error e) : e = 1 := by
  unfold startup_creds at h
  split at h
  · cases h
    rfl
  · split at h
    · cases h
      rfl
    · cases h

/-- Claim C5: the process exits with status 0 on normal termination —
whatever the final value of the quit flag, including after a forced
(double-signal) shutdown — and with status 1 on a credential startup
failure (unknown auth policy, or a required password hash absent); a
non-zero exit happens only when startup failed. -/
theorem exit_code_discipline (prev : AuthFlags) (cfg : StartupConfig)
    (q e : Nat) (f : AuthFlags) :
    (startup_creds prev cfg = .error e → e = 1 ∧ main_exit_code prev cfg q = 1) ∧
    (startup_creds prev cfg = .ok f → main_exit_code prev cfg q = 0) ∧
    (main_exit_code prev cfg q ≠ 0 → startup_creds prev cfg = .error 1) := by
  refine ⟨?_, ?_, ?_⟩
  · intro h
    have he : e = 1 := startup_error_is_one prev cfg e h
    subst he
    exact ⟨rfl, by simp [main_exit_code, h]⟩
  · intro h
    simp [main_exit_code, h]
  · intro h
    unfold main_exit_code at h
    cases hs : startup_creds prev cfg with
    | error c =>
      have := startup_error_is_one prev cfg c hs
      subst this
      rfl
    | ok f2 =>
      rw [hs] at h
      simp at h

/-- Claim C5 witness: a missing NT hash is a startup failure with exit
code 1; a complete configuration exits 0 even with the quit flag at 3
(forced shutdown). -/
theorem exit_code_discipline_witness :
    main_exit_code ⟨1, 1, 0⟩ ⟨"", false, true, true, true⟩ 0 = 1 ∧
    main_exit_code ⟨1, 1, 0⟩ ⟨"nt", false, false, true, true⟩ 3 = 0 :=
  ⟨((exit_code_discipline ⟨1, 1, 0⟩ ⟨"", false, true, true, true⟩ 0 1 ⟨1, 1, 0⟩).1
      (by rfl)).2,
   (exit_code_discipline ⟨1, 1, 0⟩ ⟨"nt", false, false, true, true⟩ 3 1 ⟨1, 0, 0⟩).2.1
      (by rfl)⟩

/-- Claim C7: when a cleartext password is supplied at startup, every
selected hash is computed from it and the in-memory cleartext buffer is
then overwritten with zero bytes (same length, all zeros) before the
accept loop starts. -/
theorem cleartext_hashed_then_wiped (nt_hash lm_hash : List Nat → List Nat)
    (ntlm2_hash : String → String → List Nat → List Nat)
    (f : AuthFlags) (magic_det interactivehash : Bool)
    (cuser cdomain : String) (cpassword passnt passlm passntlm2 : List Nat)
    (_hpw : cpassword ≠ []) :
    (hash_cleartext_password nt_hash lm_hash ntlm2_hash f magic_det
        interactivehash cuser cdomain cpassword passnt passlm passntlm2).cpassword =
      List.replicate cpassword.length 0 ∧
    (∀ b ∈ (hash_cleartext_password nt_hash lm_hash ntlm2_hash f magic_det
        interactivehash cuser cdomain cpassword passnt passlm passntlm2).cpassword,
      b = 0) ∧
    (f.hashnt ≠ 0 →
      (hash_cleartext_password nt_hash lm_hash ntlm2_hash f magic_det
        interactivehash cuser cdomain cpassword passnt passlm passntlm2).passnt =
        nt_hash cpassword) ∧
    (f.hashlm ≠ 0 →
      (hash_cleartext_password nt_hash lm_hash ntlm2_hash f magic_det
        interactivehash cuser cdomain cpassword passnt passlm passntlm2).passlm =
        lm_hash cpassword) ∧
    (f.hashntlm2 ≠ 0 →
      (hash_cleartext_password nt_hash lm_hash ntlm2_hash f magic_det
        interactivehash cuser cdomain cpassword passnt passlm passntlm2).passntlm2 =
        ntlm2_hash cuser cdomain cpassword) := by
  refine ⟨rfl, ?_, ?_, ?_, ?_⟩
  · intro b hb
    simp only [hash_cleartext_password] at hb
    exact (List.eq_of_mem_replicate hb)
  · intro h
    have : (f.hashnt != 0 || magic_det || interactivehash) = true := by
      simp [h]
    simp [hash_cleartext_password, this]
  · intro h
    have : (f.hashlm != 0 || magic_det || interactivehash) = true := by
      simp [h]
    simp [hash_cleartext_password, this]
  · intro h
    have : (f.hashntlm2 != 0 || magic_det || interactivehash) = true := by
      simp [h]
    simp [hash_cleartext_password, this]

/-- Claim C7 witness: the `-a ntlm` flag set on password `"a"`. -/
theorem cleartext_hashed_then_wiped_witness :
    (hash_cleartext_password (fun l => 0 :: l) (fun l => 1 :: l)
        (fun _ _ l => 2 :: l) ⟨1, 1, 0⟩ false false "u" "d" [97] [] [] []).cpassword =
      List.replicate 1 0 ∧
    (hash_cleartext_password (fun l => 0 :: l) (fun l => 1 :: l)
        (fun _ _ l => 2 :: l) ⟨1, 1, 0⟩ false false "u" "d" [97] [] [] []).passnt =
      0 :: [97] ∧
    (hash_cleartext_password (fun l => 0 :: l) (fun l => 1 :: l)
        (fun _ _ l => 2 :: l) ⟨1, 1, 0⟩ false false "u" "d" [97] [] [] []).passlm =
      1 :: [97] :=
  ⟨(cleartext_hashed_then_wiped (fun l => 0 :: l) (fun l => 1 :: l)
      (fun _ _ l => 2 :: l) ⟨1, 1, 0⟩ false false "u" "d" [97] [] [] []
      (by decide)).1,
   (cleartext_hashed_then_wiped (fun l => 0 :: l) (fun l => 1 :: l)
      (fun _ _ l => 2 :: l) ⟨1, 1, 0⟩ false false "u" "d" [97] [] [] []
      (by decide)).2.2.1 (by decide),
   (cleartext_hashed_then_wiped (fun l => 0 :: l) (fun l => 1 :: l)
      (fun _ _ l => 2 :: l) ⟨1, 1, 0⟩ false false "u" "d" [97] [] [] []
      (by decide)).2.2.2.1 (by decide)⟩

/-- String length is preserved by lower-casing. -/
theorem lowercase_length (a : String) : a.length = (lowercase a).length := by
  unfold lowercase
  rw [List.length_map]
  rfl

/-- Claim C8: parsing the Auth policy string sets exactly the matching
flag combination — "ntlm" sets hashnt and hashlm, "nt" only hashnt,
"lm" only hashlm, "ntlmv2" only hashntlm2, "ntlm2sr" sets hashnt to 2 —
the comparison is case-insensitive, and any other non-empty value makes
startup terminate the process with exit status 1. -/
theorem auth_policy_parsing (prev : AuthFlags) (a b : String) (q : Nat)
    (cfg : StartupConfig) :
    parse_auth prev "ntlm" = some ⟨1, 1, 0⟩ ∧
    parse_auth prev "nt" = some ⟨1, 0, 0⟩ ∧
    parse_auth prev "lm" = some ⟨0, 1, 0⟩ ∧
    parse_auth prev "ntlmv2" = some ⟨0, 0, 1⟩ ∧
    parse_auth prev "ntlm2sr" = some ⟨2, 0, 0⟩ ∧
    (lowercase a = lowercase b → parse_auth prev a = parse_auth prev b) ∧
    (a.length ≠ 0 →
      strcasecmp_eq "ntlm" a = false → strcasecmp_eq "nt" a = false →
      strcasecmp_eq "lm" a = false → strcasecmp_eq "ntlmv2" a = false →
      strcasecmp_eq "ntlm2sr" a = false →
      parse_auth prev a = none ∧
      (cfg.cauth = a → main_exit_code prev cfg q = 1)) := by
  refine ⟨rfl, rfl, rfl, rfl, rfl, ?_, ?_⟩
  · intro hl
    have hlen : a.length = b.length := by
      rw [lowercase_length a, lowercase_length b, hl]
    simp only [parse_auth, strcasecmp_eq, hl, hlen]
  · intro h0 h1 h2 h3 h4 h5
    have hnone : parse_auth prev a = none := by
      have hl : (a.length == 0) = false := by
        simp [h0]
      simp [parse_auth, hl, h1, h2, h3, h4, h5]
    refine ⟨hnone, ?_⟩
    intro hc
    simp [main_exit_code, startup_creds, hc, hnone]

/-- Claim C8 witness: the mixed-case value "NTLMv2" selects only the
NTLMv2 hash, and the unknown value "foo" exits with status 1. -/
theorem auth_policy_parsing_witness :
    parse_auth ⟨9, 9, 9⟩ "NTLMv2" = some ⟨0, 0, 1⟩ ∧
    parse_auth ⟨9, 9, 9⟩ "foo" = none ∧
    main_exit_code ⟨9, 9, 9⟩ ⟨"foo", false, false, false, false⟩ 0 = 1 := by
  have t := auth_policy_parsing ⟨9, 9, 9⟩ "ntlmv2" "NTLMv2" 0
    ⟨"foo", false, false, false, false⟩
  have tf := auth_policy_parsing ⟨9, 9, 9⟩ "foo" "foo" 0
    ⟨"foo", false, false, false, false⟩
  refine ⟨?_, ?_, ?_⟩
  · rw [← t.2.2.2.2.2.1 (by decide)]
    exact t.2.2.2.1
  · exact (tf.2.2.2.2.2.2 (by decide) (by decide) (by decide) (by decide)
      (by decide) (by decide)).1
  · exact (tf.2.2.2.2.2.2 (by decide) (by decide) (by decide) (by decide)
      (by decide) (by decide)).2 rfl

/-- The first method-scan loop finds 0x00 whenever it was offered. -/
theorem find_zero_of_mem (l : List Nat) (h : 0 ∈ l) :
    l.find? (fun a => a == 0) = some 0 := by
  induction l with
  | nil => cases h
  | cons a as ih =>
    by_cases ha : a = 0
    · subst ha
      simp [List.find?]
    · rw [List.find?_cons_of_neg _ (by simp [ha])]
      rcases List.mem_cons.mp h with h0 | hm
      · exact absurd h0.symm ha
      · exact ih hm

/-- A nonempty user table makes the "wide open" test false. -/
theorem length_beq_zero_false (users : List (List Nat × List Nat))
    (h : users ≠ []) : (users.length == 0) = false := by
  simp [List.length_eq_zero]
  exact h

/-- Reading the username/password block: one byte of username length,
the username, one byte of password length, the password. -/
theorem readN_uname_block (uname : List Nat) (x : Nat) (t : List Nat) :
    readN (uname.length + 1) (uname ++ x :: t) = some (uname ++ [x], t) := by
  have h := readN_exact (uname ++ [x]) t
  simpa [List.append_assoc] using h

/-- Claim C2: with an empty user table a client offer of method 0x00 is
answered by selecting no-auth; with a non-empty table only method 0x02
is ever selected, the submitted username/password pair is validated
against the table (a correct pair is acknowledged with `01 00` and the
negotiation proceeds), and a wrong password is answered with the
sub-negotiation failure bytes `01 FF` after which the connection is
closed. -/
theorem socks5_auth_policy (fnm : String → String → Bool)
    (noproxy : List String) (users : List (List Nat × List Nat))
    (connectOk : Bool) (auths : List Nat) (m : Nat)
    (uname upass pw tail_ : List Nat) :
    (users = [] → 0 ∈ auths →
      select_method (users.length == 0) auths = some 0) ∧
    (users ≠ [] → select_method (users.length == 0) auths = some m → m = 2) ∧
    (hlist_get users uname = some pw →
      socks5_subnegotiation users
        ([5, uname.length] ++ uname ++ [pw.length] ++ pw ++ tail_) =
        ([[1, 0]], some tail_)) ∧
    (users ≠ [] → hlist_get users uname = some pw → pw ≠ upass →
      socks5_thread fnm noproxy users connectOk
        ([5, 1, 2, 5, uname.length] ++ uname ++ [upass.length] ++ upass ++ tail_) =
        ([[5, 2], [1, 255]], .bailout)) := by
  refine ⟨?_, ?_, ?_, ?_⟩
  · intro hu hm
    subst hu
    simp [select_method, find_zero_of_mem auths hm]
  · intro hu hsel
    rw [length_beq_zero_false users hu] at hsel
    simp [select_method] at hsel
    have := List.find?_some hsel
    simpa using this.symm
  · intro hget
    have h2 := readN_uname_block uname pw.length (pw ++ tail_)
    simp [socks5_subnegotiation, readN, h2, List.take_left, getD_append_len,
      readN_exact, check_credentials, hget]
  · intro hu hget hne
    have h0 := length_beq_zero_false users hu
    have h2 := readN_uname_block uname upass.length (upass ++ tail_)
    have hbad : (pw == upass) = false := by
      simp [hne]
    simp [socks5_thread, readN, h0, select_method, List.find?, h2,
      socks5_subnegotiation, List.take_left, getD_append_len, readN_exact,
      check_credentials, hget, hbad]

/-- Claim C2 witness: user table `{alice: s3cret}` (byte strings);
method selection, a successful login, and a wrong-password rejection. -/
theorem socks5_auth_policy_witness :
    select_method (([] : List (List Nat × List Nat)).length == 0) [0, 2] = some 0 ∧
    socks5_subnegotiation [([97, 108, 105, 99, 101], [115, 51, 99, 114, 101, 116])]
      ([5, 5] ++ [97, 108, 105, 99, 101] ++ [6] ++ [115, 51, 99, 114, 101, 116] ++ []) =
      ([[1, 0]], some []) ∧
    socks5_thread (fun _ _ => false) []
      [([97, 108, 105, 99, 101], [115, 51, 99, 114, 101, 116])] true
      ([5, 1, 2, 5, 5] ++ [97, 108, 105, 99, 101] ++ [5] ++ [119, 114, 111, 110, 103] ++ []) =
      ([[5, 2], [1, 255]], .bailout) := by
  have t := socks5_auth_policy (fun _ _ => false) []
    [([97, 108, 105, 99, 101], [115, 51, 99, 114, 101, 116])] true [0, 2] 0
    [97, 108, 105, 99, 101] [119, 114, 111, 110, 103] [115, 51, 99, 114, 101, 116] []
  have te := socks5_auth_policy (fun _ _ => false) []
    ([] : List (List Nat × List Nat)) true [0, 2] 0 [] [] [] []
  exact ⟨te.1 rfl (by decide), t.2.2.1 (by decide), t.2.2.2 (by decide) (by decide) (by decide)⟩

/-- Claim C9: with an empty user table, a client that offers only method
0x02 (and not no-auth) still gets 0x02 selected, and any submitted
username/password pair is accepted with the success reply `01 00`
because the credential check short-circuits on an empty table; the
worker then proceeds to the request phase. -/
theorem socks5_open_table_accepts_any (fnm : String → String → Bool)
    (noproxy : List String) (connectOk : Bool) (uname upass tail_ : List Nat) :
    socks5_thread fnm noproxy [] connectOk
      ([5, 1, 2, 5, uname.length] ++ uname ++ [upass.length] ++ upass ++ tail_) =
      ([5, 2] :: [1, 0] :: (socks5_request fnm noproxy connectOk tail_).1,
       (socks5_request fnm noproxy connectOk tail_).2) := by
  have h2 := readN_uname_block uname upass.length (upass ++ tail_)
  simp [socks5_thread, readN, select_method, List.find?, h2,
    socks5_subnegotiation, List.take_left, getD_append_len, readN_exact,
    check_credentials]

/-- Claim C3 counterexample: an IPv6 CONNECT request (`05 01 00 04`) and
a BIND request (`05 02 00 01`) are both refused with SOCKS reply code
0x02 ("connection not allowed"), not with 0x08 (address type not
supported) or 0x07 (command not supported) as the claim states. -/
theorem socks5_reply_code_counterexample :
    ((socks5_request (fun _ _ => false) [] true [5, 1, 0, 4]).1.getD 0 []).getD 1 0 = 2 ∧
    (socks5_request (fun _ _ => false) [] true [5, 1, 0, 4]).2 = S5Outcome.bailout ∧
    ((socks5_request (fun _ _ => false) [] true [5, 2, 0, 1]).1.getD 0 []).getD 1 0 = 2 ∧
    (socks5_request (fun _ _ => false) [] true [5, 2, 0, 1]).2 = S5Outcome.bailout ∧
    ¬((socks5_request (fun _ _ => false) [] true [5, 1, 0, 4]).1.getD 0 []).getD 1 0 = 8 ∧
    ¬((socks5_request (fun _ _ => false) [] true [5, 2, 0, 1]).1.getD 0 []).getD 1 0 = 7 := by
  decide

/-- Claim C3 (amended): every SOCKS5 request whose address type is IPv6
or whose command is not CONNECT is refused with the single reply code
0x02 ("connection not allowed by ruleset") — the code does not
distinguish the two cases with 0x08 / 0x07 — and the connection is
closed. -/
theorem socks5_refuses_unsupported (fnm : String → String → Bool)
    (noproxy : List String) (connectOk : Bool) (v cmd r atyp : Nat)
    (rest : List Nat) (h : atyp = 4 ∨ cmd ≠ 1) :
    socks5_request fnm noproxy connectOk (v :: cmd :: r :: atyp :: rest) =
      ([[5, 2, 0, 1, 0, 0, 0, 0, 0, 0]], .bailout) := by
  have hcond : (cmd != 1 || (atyp != 1 && atyp != 3)) = true := by
    rcases h with h | h
    · subst h
      simp
    · simp [h]
  simp [socks5_request, readN, hcond]

/-- Claim C3 (amended) witness: the IPv6 CONNECT and the BIND request. -/
theorem socks5_refuses_unsupported_witness :
    socks5_request (fun _ _ => false) [] true [5, 1, 0, 4] =
      ([[5, 2, 0, 1, 0, 0, 0, 0, 0, 0]], .bailout) ∧
    socks5_request (fun _ _ => false) [] true [5, 2, 0, 1] =
      ([[5, 2, 0, 1, 0, 0, 0, 0, 0, 0]], .bailout) :=
  ⟨socks5_refuses_unsupported (fun _ _ => false) [] true 5 1 0 4 [] (Or.inl rfl),
   socks5_refuses_unsupported (fun _ _ => false) [] true 5 2 0 1 [] (Or.inr (by decide))⟩

end Cntlm
